import Mathlib

/-!
Verification of the analizador-financiero dashboard (src/app.py).

The program is a single-file Streamlit dashboard.  The computational parts
embedded here are:

* `BenchmarkEngine.get_benchmark` (src/app.py lines 68-88)
* `DataAuditor.verify_all`        (src/app.py lines 101-142)
* `FundamentalAnalyst.load_all_data` validation (lines 158-161)
* `FundamentalAnalyst.get`        (lines 174-176)
* `FundamentalAnalyst.calculate_score` (lines 188-236)
* the top-level try/except of `main` (lines 258-660)

Python dicts of floats are modelled as association lists
`List (String × Option ℚ)` (a stored value may be `None`, hence `Option`;
lookup takes the first binding, as a dict has unique keys).  Python floats
are modelled as rationals, float literals by the decimal they denote.
Network objects (yfinance responses) are passed in as explicit parameters:
a provider call that may raise is modelled by an `Option`/`Except` input.
-/

namespace AnalizadorFinanciero

/-- A provider "info" mapping: Python dict from string keys to
float-or-None values, as an association list. -/
abbrev Info := List (String × Option ℚ)

/-- Python `info.get(k)` on a dict: `none` when the key is absent or the
stored value is `None`. -/
def getOpt (info : Info) (k : String) : Option ℚ :=
  (info.lookup k).join

/-- Python truthiness of a float-or-None value: `None` and `0.0` are falsy. -/
def truthy (v : Option ℚ) : Bool :=
  match v with
  | none => false
  | some x => decide (x ≠ 0)

/-- Whether the dict has a binding for the key (even a `None` one). -/
def containsKey (info : Info) (k : String) : Bool :=
  (info.lookup k).isSome

/-- The getter `FundamentalAnalyst.get(key, default=0.0)` (src/app.py lines 174-176):
the stored value when present and not `None`, else the default `0.0`. -/
def get (info : Info) (k : String) : ℚ :=
  (getOpt info k).getD 0

/-- The benchmark mapping produced by `BenchmarkEngine.get_benchmark`:
it always carries the six ratio keys plus the ETF ticker. -/
structure Benchmark where
  ticker : String
  pe : ℚ
  pb : ℚ
  ps : ℚ
  margin : ℚ
  roe : ℚ
  roa : ℚ
deriving DecidableEq, Repr

/-- The scoring function `FundamentalAnalyst.calculate_score` (src/app.py lines 188-236),
a literal translation of the sequential `score +=` checklist. -/
def calculate_score (info : Info) (b : Benchmark) : ℤ :=
  let score : ℤ := 0
  let max_score : ℤ := 100
  let pe := get info "trailingPE"
  let score :=
    if 0 < pe ∧ 0 < b.pe then
      if pe < b.pe * (8/10) then score + 20
      else if pe < b.pe * (12/10) then score + 10
      else score
    else score
  let score := if b.margin < get info "profitMargins" then score + 10 else score
  let score := if b.roe < get info "returnOnEquity" then score + 10 else score
  let score := if (5:ℚ)/100 < get info "revenueGrowth" then score + 10 else score
  let score := if (5:ℚ)/100 < get info "earningsGrowth" then score + 10 else score
  let score := if (3:ℚ)/2 < get info "currentRatio" then score + 10 else score
  let de_ratio :=
    if 10 < get info "debtToEquity" then get info "debtToEquity" / 100
    else get info "debtToEquity"
  let score := if de_ratio < 1 then score + 10 else score
  let green_flags : ℤ := if 0 < get info "trailingEps" then 1 else 0
  let red_flags : ℤ := if 0 < get info "trailingEps" then 0 else 1
  let green_flags := if 0 < get info "freeCashflow" then green_flags + 1 else green_flags
  let red_flags := if 0 < get info "freeCashflow" then red_flags else red_flags + 1
  let score := score + max 0 ((green_flags - red_flags) * 3)
  min score max_score

/-- Valuation award: the P/E block of the checklist, as a standalone award. -/
def valuationAward (pe bpe : ℚ) : ℤ :=
  if 0 < pe ∧ 0 < bpe then
    if pe < bpe * (8/10) then 20
    else if pe < bpe * (12/10) then 10
    else 0
  else 0

/-- Profit-margin award: 10 points when the margin beats the benchmark. -/
def marginAward (m bm : ℚ) : ℤ := if bm < m then 10 else 0

/-- ROE award: 10 points when ROE beats the benchmark. -/
def roeAward (r br : ℚ) : ℤ := if br < r then 10 else 0

/-- Growth award: 10 points when growth exceeds the fixed 5% threshold. -/
def growthAward (g : ℚ) : ℤ := if (5:ℚ)/100 < g then 10 else 0

/-- Liquidity award: 10 points when the current ratio exceeds 1.5. -/
def currentRatioAward (c : ℚ) : ℤ := if (3:ℚ)/2 < c then 10 else 0

/-- Leverage award: the debt-to-equity value is rescaled by 100 when above
10 (percent-style providers), then 10 points when below 1.0. -/
def leverageAward (d : ℚ) : ℤ :=
  if (if 10 < d then d / 100 else d) < 1 then 10 else 0

/-- Flag bonus: EPS and free cash flow each add a green or red flag;
the bonus is `max(0, (green - red) * 3)`. -/
def flagBonus (eps fcf : ℚ) : ℤ :=
  max 0 ((((if 0 < eps then (1:ℤ) else 0) + (if 0 < fcf then 1 else 0))
    - ((if 0 < eps then (0:ℤ) else 1) + (if 0 < fcf then 0 else 1))) * 3)

/-- The score as a capped sum of the named awards. -/
def scoreAsSum (info : Info) (b : Benchmark) : ℤ :=
  min (valuationAward (get info "trailingPE") b.pe
    + marginAward (get info "profitMargins") b.margin
    + roeAward (get info "returnOnEquity") b.roe
    + growthAward (get info "revenueGrowth")
    + growthAward (get info "earningsGrowth")
    + currentRatioAward (get info "currentRatio")
    + leverageAward (get info "debtToEquity")
    + flagBonus (get info "trailingEps") (get info "freeCashflow")) 100

/-- The error taxonomy of the spec (§7): InvalidInput, DataUnavailable,
ConfigurationError, RateLimited, each carrying its message.  The only
error the source raises itself is the malformed-ticker `ValueError` of
`load_all_data`, an `InvalidInput`. -/
inductive AnalysisError
  | invalidInput (msg : String)
  | dataUnavailable (msg : String)
  | configurationError (msg : String)
  | rateLimited (msg : String)
deriving DecidableEq, Repr

/-- Python `str(e)`: the user-visible message of a taxonomy error. -/
def AnalysisError.message : AnalysisError → String
  | .invalidInput m => m
  | .dataUnavailable m => m
  | .configurationError m => m
  | .rateLimited m => m

/-- The table `BenchmarkEngine.SECTOR_ETF_MAP` (src/app.py lines 54-66). -/
def SECTOR_ETF_MAP : List (String × String) :=
  [("Technology", "XLK"), ("Financial Services", "XLF"), ("Healthcare", "XLV"),
   ("Consumer Cyclical", "XLY"), ("Energy", "XLE"), ("Industrials", "XLI"),
   ("Consumer Defensive", "XLP"), ("Utilities", "XLU"), ("Real Estate", "XLRE"),
   ("Communication Services", "XLC"), ("Basic Materials", "XLB")]

/-- Python `x or d` for a float-or-None `x`: the default when `x` is falsy
(`None` or `0.0`). -/
def orFalsy (v : Option ℚ) (d : ℚ) : ℚ :=
  match v with
  | none => d
  | some x => if x = 0 then d else x

/-- The fixed fallback mapping of `get_benchmark`'s `except` branch
(src/app.py lines 84-88). -/
def DEFAULT_BENCHMARK : Benchmark :=
  { ticker := "DEFAULT", pe := 20, pb := 3, ps := 2,
    margin := 1/10, roe := 12/100, roa := 5/100 }

/-- The function `BenchmarkEngine.get_benchmark` (src/app.py lines 68-88).  The yfinance
call is passed in as `resp`: `some info` models a successful `etf.info`,
`none` an exception caught by the bare `except`.  Each field is
`info.get(key, default) or default` from the source. -/
def get_benchmark (sector : String) (resp : Option Info) : Benchmark :=
  let etf_ticker := (SECTOR_ETF_MAP.lookup sector).getD "SPY"
  match resp with
  | some info =>
    { ticker := etf_ticker
      pe := orFalsy (getOpt info "trailingPE") 20
      pb := orFalsy (getOpt info "priceToBook") 3
      ps := orFalsy (getOpt info "priceToSalesTrailing12Months") 2
      margin := orFalsy (getOpt info "profitMargins") (1/10)
      roe := orFalsy (getOpt info "returnOnEquity") (12/100)
      roa := orFalsy (getOpt info "returnOnAssets") (5/100) }
  | none => DEFAULT_BENCHMARK

/-- The record returned by `DataAuditor.verify_all` (src/app.py lines 134-142). -/
structure AuditResult where
  total_checks : ℕ
  verified : ℕ
  warnings : ℕ
  errors : ℕ
  success_rate : ℚ
  warning_list : List String
  error_list : List String
deriving Repr

/-- The audit `DataAuditor.verify_all` (src/app.py lines 101-142), run on a fresh
auditor (`__init__` zeroes the tallies, lines 94-99, and `main` builds a new
`DataAuditor(analyst)` per report).  The four checks: raw data present,
current price positive, P/E consistent with price/EPS, gross margin in
[0, 1]; each Python `if x` truthiness test on a float becomes `x ≠ 0`. -/
def verify_all (info : Info) : AuditResult :=
  let check1 : ℕ := if info = [] then 0 else 1
  let current_price :=
    if get info "currentPrice" ≠ 0 then get info "currentPrice"
    else get info "regularMarketPrice"
  let check2 : ℕ := if current_price ≠ 0 ∧ 0 < current_price then 1 else 0
  let warns2 : List String :=
    if current_price ≠ 0 ∧ 0 < current_price then [] else ["Precio actual no disponible"]
  let pe := get info "trailingPE"
  let eps := get info "trailingEps"
  let check3 : ℕ :=
    if pe ≠ 0 ∧ current_price ≠ 0 ∧ eps ≠ 0 ∧ 0 < eps then
      if |current_price / eps - pe| / pe < 5/100 then 1 else 0
    else 0
  let warns3 : List String :=
    if pe ≠ 0 ∧ current_price ≠ 0 ∧ eps ≠ 0 ∧ 0 < eps then
      if |current_price / eps - pe| / pe < 5/100 then [] else ["P/E discrepancia detectada"]
    else []
  let gross_margin := get info "grossMargins"
  let check4 : ℕ :=
    if gross_margin ≠ 0 ∧ 0 ≤ gross_margin ∧ gross_margin ≤ 1 then 1 else 0
  let total_checks : ℕ := 4
  let verified := check1 + check2 + check3 + check4
  let warning_list := warns2 ++ warns3
  let success_rate : ℚ :=
    if 0 < total_checks then (verified : ℚ) / (total_checks : ℚ) * 100 else 0
  { total_checks := total_checks, verified := verified,
    warnings := warning_list.length, errors := 0,
    success_rate := success_rate,
    warning_list := warning_list, error_list := [] }

/-- The validation at the head of `FundamentalAnalyst.load_all_data`
(src/app.py lines 158-161).  `self.info = self.stock.info` is passed in as
`info`; the statement/history fetches that follow are wrapped in
`try/except: pass` and the benchmark call cannot raise, so the function's
raise/success behaviour is exactly this test:
`if not info.get('currentPrice') and not info.get('regularMarketPrice')`. -/
def load_all_data (ticker : String) (info : Info) : Except AnalysisError Unit :=
  if !(truthy (getOpt info "currentPrice")) && !(truthy (getOpt info "regularMarketPrice")) then
    .error (.invalidInput ("Ticker " ++ ticker ++ " not found"))
  else
    .ok ()

/-- The outcome of one pass through the analysis block of `main`. -/
inductive MainOutcome
  | rendered (report : String)
  | errorShown (msg : String)
  | crashed (e : AnalysisError)
deriving DecidableEq, Repr

/-- The analysis invocation of `main` (src/app.py lines 258-660): everything
inside the `try` is summarised by its outcome `body`; the
`except Exception as e` branch (lines 658-660) shows
`❌ Error analyzing {ticker.upper()}: {str(e)}` and falls through, so `main`
returns normally either way. -/
def main_analysis (ticker_input : String) (body : Except AnalysisError String) : MainOutcome :=
  match body with
  | .ok report => .rendered report
  | .error e =>
      .errorShown ("❌ Error analyzing " ++ ticker_input.toUpper ++ ": " ++ e.message)

/-- Modelled from the spec: the Portfolio Return Engine of §4.1 is not part
of src/app.py (this variant only does fundamental scoring), so
`normalize_weights(w)` is taken from the spec's words: "divides each weight
by the sum; fails with InvalidInput if sum is zero". -/
def normalize_weights (w : List ℚ) : Except AnalysisError (List ℚ) :=
  if w.sum = 0 then .error (.invalidInput "weight sum is zero")
  else .ok (w.map (fun x => x / w.sum))

/-- Modelled from the spec: `cumulative_value(returns, capital)` of the
absent Portfolio Return Engine — "running product of (1+r) scaled by
capital", whose value at t=0 equals the initial capital (§8). -/
def cumulative_value : List ℚ → ℚ → List ℚ
  | [], capital => [capital]
  | r :: rs, capital => capital :: cumulative_value rs (capital * (1 + r))

/-- Concrete ratio mapping used by the `score_is_sum_of_awards` witness. -/
def infoEx : Info := [("trailingPE", some 10)]

/-- Concrete benchmark used by the `score_is_sum_of_awards` witness. -/
def benchEx : Benchmark :=
  { ticker := "SPY", pe := 20, pb := 3, ps := 2,
    margin := 1/10, roe := 12/100, roa := 5/100 }

theorem if_push_add (c : Prop) [Decidable c] (s k : ℤ) :
    (if c then s + k else s) = s + (if c then k else 0) := by
  split_ifs <;> omega

theorem if_add_add (c : Prop) [Decidable c] (s a e : ℤ) :
    (if c then s + a else s + e) = s + (if c then a else e) := by
  split_ifs <;> rfl

theorem if_push_add_else (c : Prop) [Decidable c] (s k : ℤ) :
    (if c then s else s + k) = s + (if c then 0 else k) := by
  split_ifs <;> omega

set_option maxHeartbeats 1000000 in
theorem score_eq_sum (info : Info) (b : Benchmark) :
    calculate_score info b = scoreAsSum info b := by
  simp only [calculate_score, scoreAsSum, valuationAward, marginAward, roeAward,
    growthAward, currentRatioAward, leverageAward, flagBonus, if_push_add, if_add_add,
    if_push_add_else, zero_add]

theorem valuationAward_le (pe bpe : ℚ) : 0 ≤ valuationAward pe bpe ∧ valuationAward pe bpe ≤ 20 := by
  unfold valuationAward; split_ifs <;> omega

theorem marginAward_le (m bm : ℚ) : 0 ≤ marginAward m bm ∧ marginAward m bm ≤ 10 := by
  unfold marginAward; split_ifs <;> omega

theorem roeAward_le (r br : ℚ) : 0 ≤ roeAward r br ∧ roeAward r br ≤ 10 := by
  unfold roeAward; split_ifs <;> omega

theorem growthAward_le (g : ℚ) : 0 ≤ growthAward g ∧ growthAward g ≤ 10 := by
  unfold growthAward; split_ifs <;> omega

theorem currentRatioAward_le (c : ℚ) : 0 ≤ currentRatioAward c ∧ currentRatioAward c ≤ 10 := by
  unfold currentRatioAward; split_ifs <;> omega

theorem leverageAward_le (d : ℚ) : 0 ≤ leverageAward d ∧ leverageAward d ≤ 10 := by
  unfold leverageAward; split_ifs <;> omega

theorem flagBonus_le (eps fcf : ℚ) : 0 ≤ flagBonus eps fcf ∧ flagBonus eps fcf ≤ 6 := by
  unfold flagBonus; split_ifs <;> omega

theorem scoreAsSum_bounds (info : Info) (b : Benchmark) :
    0 ≤ scoreAsSum info b ∧ scoreAsSum info b ≤ 86 := by
  unfold scoreAsSum
  have h1 := valuationAward_le (get info "trailingPE") b.pe
  have h2 := marginAward_le (get info "profitMargins") b.margin
  have h3 := roeAward_le (get info "returnOnEquity") b.roe
  have h4 := growthAward_le (get info "revenueGrowth")
  have h5 := growthAward_le (get info "earningsGrowth")
  have h6 := currentRatioAward_le (get info "currentRatio")
  have h7 := leverageAward_le (get info "debtToEquity")
  have h8 := flagBonus_le (get info "trailingEps") (get info "freeCashflow")
  omega

/-- C1: for every input ratio mapping and every benchmark mapping,
`calculate_score` returns an integer score in [0, 100]. -/
theorem calculate_score_in_range (info : Info) (b : Benchmark) :
    0 ≤ calculate_score info b ∧ calculate_score info b ≤ 100 := by
  rw [score_eq_sum]
  have h := scoreAsSum_bounds info b
  omega

/-- C2: the fundamental score is the capped sum of the named per-ratio
awards; in particular, when `trailingPE > 0` and the benchmark pe is
positive, the valuation component awards 20 points below 0.8x the benchmark
pe, else 10 points below 1.2x, else 0. -/
theorem score_is_sum_of_awards (info : Info) (b : Benchmark)
    (hpe : 0 < get info "trailingPE") (hb : 0 < b.pe) :
    calculate_score info b = scoreAsSum info b ∧
    valuationAward (get info "trailingPE") b.pe =
      (if get info "trailingPE" < b.pe * (8/10) then 20
       else if get info "trailingPE" < b.pe * (12/10) then 10 else 0) := by
  refine ⟨score_eq_sum info b, ?_⟩
  unfold valuationAward
  rw [if_pos ⟨hpe, hb⟩]

theorem score_is_sum_of_awards_witness :
    calculate_score infoEx benchEx = scoreAsSum infoEx benchEx ∧
    valuationAward (get infoEx "trailingPE") benchEx.pe =
      (if get infoEx "trailingPE" < benchEx.pe * (8/10) then 20
       else if get infoEx "trailingPE" < benchEx.pe * (12/10) then 10 else 0) :=
  score_is_sum_of_awards infoEx benchEx (by decide) (by decide)

/-- C3: `calculate_score` is deterministic — equal ratio mappings and equal
benchmark mappings give equal scores; the definition is a straight-line
checklist with no iteration or convergence loop. -/
theorem calculate_score_deterministic (i₁ i₂ : Info) (b₁ b₂ : Benchmark)
    (hi : i₁ = i₂) (hb : b₁ = b₂) :
    calculate_score i₁ b₁ = calculate_score i₂ b₂ := by
  rw [hi, hb]

theorem calculate_score_deterministic_witness :
    calculate_score [] benchEx = calculate_score [] benchEx :=
  calculate_score_deterministic [] [] benchEx benchEx rfl rfl

/-- C4: every taxonomy error raised inside the analysis block of `main` is
caught by the top-level `except Exception` and surfaced as a user-visible
message; no such error escapes `main`. -/
theorem main_catches_all (ticker_input : String)
    (body : Except AnalysisError String) :
    (∀ e : AnalysisError, main_analysis ticker_input body ≠ .crashed e) ∧
    (∀ e : AnalysisError, body = .error e →
      main_analysis ticker_input body =
        .errorShown ("❌ Error analyzing " ++ ticker_input.toUpper ++ ": "
          ++ e.message)) := by
  constructor
  · intro e h
    cases body <;> simp [main_analysis] at h
  · rintro e rfl
    rfl

theorem main_catches_all_witness :
    main_analysis "aapl" (Except.error (.rateLimited "HTTP 429")) ≠
      MainOutcome.crashed (.rateLimited "HTTP 429") ∧
    main_analysis "aapl" (Except.error (.rateLimited "HTTP 429")) =
      MainOutcome.errorShown ("❌ Error analyzing " ++ "aapl".toUpper ++ ": "
        ++ (AnalysisError.rateLimited "HTTP 429").message) :=
  ⟨(main_catches_all "aapl" _).1 _, (main_catches_all "aapl" _).2 _ rfl⟩

/-- C5 counterexample: an info mapping that does contain a `currentPrice`
entry (bound to `0.0`) still makes `load_all_data` raise the not-found
error, because the source tests Python truthiness, not key presence. -/
theorem load_all_data_counterexample :
    containsKey [("currentPrice", some 0)] "currentPrice" = true ∧
    load_all_data "AAPL" [("currentPrice", some 0)] =
      Except.error (.invalidInput ("Ticker " ++ "AAPL" ++ " not found")) :=
  ⟨rfl, rfl⟩

/-- C5 (amended): `load_all_data` fails with the not-found `InvalidInput`
naming the ticker exactly when neither `currentPrice` nor
`regularMarketPrice` carries a truthy (present, non-None, nonzero) value,
and succeeds otherwise. -/
theorem load_all_data_not_found (ticker : String) (info : Info) :
    (truthy (getOpt info "currentPrice") = false →
     truthy (getOpt info "regularMarketPrice") = false →
      load_all_data ticker info =
        Except.error (.invalidInput ("Ticker " ++ ticker ++ " not found"))) ∧
    (truthy (getOpt info "currentPrice") = true ∨
     truthy (getOpt info "regularMarketPrice") = true →
      load_all_data ticker info = Except.ok ()) := by
  unfold load_all_data
  constructor
  · intro h1 h2
    rw [h1, h2]
    rfl
  · intro h
    rcases h with h | h <;> rw [h] <;> simp

theorem load_all_data_not_found_witness :
    load_all_data "MSFT" [] =
      Except.error (.invalidInput ("Ticker " ++ "MSFT" ++ " not found")) ∧
    load_all_data "MSFT" [("currentPrice", some 100)] = Except.ok () :=
  ⟨(load_all_data_not_found "MSFT" []).1 rfl rfl,
   (load_all_data_not_found "MSFT" [("currentPrice", some 100)]).2 (Or.inl rfl)⟩

theorem sum_map_div (l : List ℚ) (s : ℚ) :
    (l.map (fun x => x / s)).sum = l.sum / s := by
  induction l with
  | nil => simp
  | cons x xs ih => simp [ih, add_div]

/-- C6: `normalize_weights` divides each weight by the sum, and its output
sums to 1.0 within 1e-9 whenever the sum is nonzero; a zero-sum weight
vector fails with InvalidInput. -/
theorem normalize_weights_spec (w : List ℚ) :
    (w.sum ≠ 0 →
      normalize_weights w = Except.ok (w.map (fun x => x / w.sum)) ∧
      ∀ out, normalize_weights w = Except.ok out →
        |out.sum - 1| ≤ 1 / 1000000000) ∧
    (w.sum = 0 →
      normalize_weights w = Except.error (.invalidInput "weight sum is zero")) := by
  constructor
  · intro h
    have hw : normalize_weights w = Except.ok (w.map (fun x => x / w.sum)) := by
      unfold normalize_weights
      rw [if_neg h]
    refine ⟨hw, ?_⟩
    intro out hout
    rw [hw] at hout
    injection hout with hout
    rw [← hout, sum_map_div, div_self h]
    norm_num
  · intro h
    unfold normalize_weights
    rw [if_pos h]

theorem normalize_weights_spec_witness :
    normalize_weights [(1:ℚ), 3] =
      Except.ok ([(1:ℚ), 3].map (fun x => x / [(1:ℚ), 3].sum)) ∧
    normalize_weights [(2:ℚ), -2] =
      Except.error (.invalidInput "weight sum is zero") :=
  ⟨((normalize_weights_spec [1, 3]).1 (by norm_num)).1,
   (normalize_weights_spec [2, -2]).2 (by norm_num)⟩

/-- C7: round-trip of the portfolio value pipeline — when every per-period
return is 0, `cumulative_value` equals the initial capital at every
period. -/
theorem cumulative_value_roundtrip (capital : ℚ) (returns : List ℚ)
    (h : ∀ r ∈ returns, r = 0) :
    ∀ v ∈ cumulative_value returns capital, v = capital := by
  revert h
  induction returns generalizing capital with
  | nil =>
    intro _ v hv
    simp [cumulative_value] at hv
    exact hv
  | cons r rs ih =>
    intro h v hv
    have hr : r = 0 := h r (List.mem_cons_self r rs)
    have h' : ∀ x ∈ rs, x = 0 := fun x hx => h x (List.mem_cons_of_mem r hx)
    simp only [cumulative_value, List.mem_cons] at hv
    rcases hv with rfl | hv
    · rfl
    · have hv' := ih (capital * (1 + r)) h' v hv
      rw [hr] at hv'
      simpa using hv'

theorem cumulative_value_roundtrip_witness :
    (∀ r ∈ ([0, 0, 0] : List ℚ), r = 0) ∧
    ∀ v ∈ cumulative_value [0, 0, 0] 1000, v = 1000 :=
  ⟨by decide, cumulative_value_roundtrip 1000 [0, 0, 0] (by decide)⟩

/-- C8: the threshold awards total at most 80 and the flag bonus at most 6,
so `calculate_score` never exceeds 86: scores in (86, 100] are unreachable
and the `min(score, 100)` cap never binds. -/
theorem calculate_score_le_86 (info : Info) (b : Benchmark) :
    calculate_score info b ≤ 86 := by
  rw [score_eq_sum]
  exact (scoreAsSum_bounds info b).2

theorem orFalsy_ne_zero (v : Option ℚ) (d : ℚ) (hd : d ≠ 0) :
    orFalsy v d ≠ 0 := by
  cases v with
  | none => simpa [orFalsy] using hd
  | some x =>
    by_cases hx : x = 0 <;> simp [orFalsy, hx, hd]

theorem orFalsy_falsy (v : Option ℚ) (d : ℚ) (h : v = none ∨ v = some 0) :
    orFalsy v d = d := by
  rcases h with rfl | rfl <;> simp [orFalsy]

/-- C9: `get_benchmark` always returns all six ratio values nonzero — a
missing, None, or zero provider value is replaced by the fixed positive
default — an unknown sector falls back to the SPY ETF, and a provider
failure yields the fixed DEFAULT mapping. -/
theorem get_benchmark_wellformed (sector : String) (resp : Option Info) :
    ((get_benchmark sector resp).pe ≠ 0 ∧ (get_benchmark sector resp).pb ≠ 0 ∧
     (get_benchmark sector resp).ps ≠ 0 ∧ (get_benchmark sector resp).margin ≠ 0 ∧
     (get_benchmark sector resp).roe ≠ 0 ∧ (get_benchmark sector resp).roa ≠ 0) ∧
    (SECTOR_ETF_MAP.lookup sector = none → resp ≠ none →
      (get_benchmark sector resp).ticker = "SPY") ∧
    (resp = none → get_benchmark sector resp = DEFAULT_BENCHMARK) ∧
    (∀ info, resp = some info →
      ((getOpt info "trailingPE" = none ∨ getOpt info "trailingPE" = some 0) →
        (get_benchmark sector resp).pe = 20) ∧
      ((getOpt info "priceToBook" = none ∨ getOpt info "priceToBook" = some 0) →
        (get_benchmark sector resp).pb = 3) ∧
      ((getOpt info "priceToSalesTrailing12Months" = none ∨
        getOpt info "priceToSalesTrailing12Months" = some 0) →
        (get_benchmark sector resp).ps = 2) ∧
      ((getOpt info "profitMargins" = none ∨ getOpt info "profitMargins" = some 0) →
        (get_benchmark sector resp).margin = 1/10) ∧
      ((getOpt info "returnOnEquity" = none ∨ getOpt info "returnOnEquity" = some 0) →
        (get_benchmark sector resp).roe = 12/100) ∧
      ((getOpt info "returnOnAssets" = none ∨ getOpt info "returnOnAssets" = some 0) →
        (get_benchmark sector resp).roa = 5/100)) := by
  cases resp with
  | none =>
    refine ⟨?_, ?_, ?_, ?_⟩
    · simp only [get_benchmark, DEFAULT_BENCHMARK]
      norm_num
    · intro _ hn
      exact absurd rfl hn
    · intro _
      rfl
    · intro info h
      exact Option.noConfusion h
  | some info =>
    refine ⟨?_, ?_, ?_, ?_⟩
    · simp only [get_benchmark]
      exact ⟨orFalsy_ne_zero _ _ (by norm_num), orFalsy_ne_zero _ _ (by norm_num),
        orFalsy_ne_zero _ _ (by norm_num), orFalsy_ne_zero _ _ (by norm_num),
        orFalsy_ne_zero _ _ (by norm_num), orFalsy_ne_zero _ _ (by norm_num)⟩
    · intro hl _
      simp only [get_benchmark, hl, Option.getD_none]
    · intro h
      exact Option.noConfusion h
    · intro info' h
      injection h with h
      subst h
      simp only [get_benchmark]
      exact ⟨fun hf => orFalsy_falsy _ _ hf, fun hf => orFalsy_falsy _ _ hf,
        fun hf => orFalsy_falsy _ _ hf, fun hf => orFalsy_falsy _ _ hf,
        fun hf => orFalsy_falsy _ _ hf, fun hf => orFalsy_falsy _ _ hf⟩

theorem get_benchmark_wellformed_witness :
    (get_benchmark "Unknown Sector" (some [("trailingPE", some 0)])).pe ≠ 0 ∧
    (get_benchmark "Unknown Sector" (some [("trailingPE", some 0)])).ticker = "SPY" ∧
    (get_benchmark "Unknown Sector" (some [("trailingPE", some 0)])).pe = 20 :=
  ⟨(get_benchmark_wellformed "Unknown Sector" _).1.1,
   (get_benchmark_wellformed "Unknown Sector" _).2.1 (by decide) (by simp),
   ((get_benchmark_wellformed "Unknown Sector" _).2.2.2 _ rfl).1 (Or.inr rfl)⟩

/-- C10: `verify_all` performs exactly 4 checks, verifies between 0 and 4 of
them, and reports a success rate in [0, 100]. -/
theorem verify_all_invariants (info : Info) :
    (verify_all info).total_checks = 4 ∧
    0 ≤ (verify_all info).verified ∧
    (verify_all info).verified ≤ (verify_all info).total_checks ∧
    0 ≤ (verify_all info).success_rate ∧
    (verify_all info).success_rate ≤ 100 := by
  simp only [verify_all]
  split_ifs <;> norm_num

end AnalizadorFinanciero
